import Mathlib

/-!
Shallow embedding of the CivicSense intake/deduplication core
(src/src/utils/similarity.ts, src/src/agents/dedup.ts, src/src/agents/merge.ts,
src/src/agents/workflow.ts) together with theorems settling the spec claims.

Numbers that are IEEE doubles in the source are modelled as rationals; the
Haversine distance (a transcendental function) is abstracted as an explicit
distance-function parameter; wall-clock reads (Date.now) become an explicit
`now` parameter (milliseconds since epoch); every fallible external call
(Supabase reads, embedding generation, vector search, the LLM agents) is
modelled by an explicit outcome value threaded into the function that awaits
it, and database effects are explicit state passing on a `DB` record.
-/

namespace CivicSense

/-- Agent-threshold configuration (src/src/utils/config.ts, `EnvSchema`):
similarity threshold T, proximity radius R in meters, time window W in hours. -/
structure Config where
  SIMILARITY_THRESHOLD : ℚ
  GEO_RADIUS_METERS : ℚ
  TIME_WINDOW_HOURS : ℚ
deriving DecidableEq

/-- The defaults of `EnvSchema`: T = 0.85, R = 120 m, W = 48 h. -/
def defaultConfig : Config :=
  { SIMILARITY_THRESHOLD := 85/100, GEO_RADIUS_METERS := 120, TIME_WINDOW_HOURS := 48 }

/-- Return shape of `calculateSimilarityScore` (src/src/types/index.ts). -/
structure SimilarityResult where
  score : ℚ
  duplicate : Bool
  borderline : Bool
deriving DecidableEq

/-- Direct translation of `calculateSimilarityScore`
(src/src/utils/similarity.ts lines 10-46). -/
def calculateSimilarityScore (cfg : Config)
    (textSimilarity geoDistanceMeters timeDifferenceHours : ℚ) : SimilarityResult :=
  let geoFactor : ℚ :=
    if geoDistanceMeters < cfg.GEO_RADIUS_METERS then 1
    else if geoDistanceMeters < cfg.GEO_RADIUS_METERS * 2 then 8/10
    else 4/10
  let timeFactor : ℚ :=
    if timeDifferenceHours < 24 then 1
    else if timeDifferenceHours < cfg.TIME_WINDOW_HOURS then 8/10
    else 5/10
  let finalScore : ℚ := 7/10 * textSimilarity + 3/10 * (geoFactor + timeFactor) / 2
  let borderlineThreshold : ℚ := max (6/10) (cfg.SIMILARITY_THRESHOLD - 1/10)
  { score := finalScore
    duplicate := decide (cfg.SIMILARITY_THRESHOLD ≤ finalScore)
    borderline := decide (borderlineThreshold ≤ finalScore ∧ finalScore < cfg.SIMILARITY_THRESHOLD) }

/-- Ticket status (src/src/types/index.ts): `open` is spelled `opened` because
`open` is a Lean keyword. -/
inductive Status where
  | pending_dedup
  | opened
  | closed
deriving DecidableEq

/-- A ticket row as the dedup/merge pipeline reads it (the `tickets` table). -/
structure DBTicket where
  id : String
  org_id : String
  status : Status
  parent_id : Option String
  lat : Option ℚ
  lon : Option ℚ
  created_at : ℚ
deriving DecidableEq

/-- A report row (the `reports` table), as read by `reprocessFailedTickets`. -/
structure Report where
  ticket_id : String
  user_id : String
  channel : String
  transcript : String
deriving DecidableEq

/-- A row of the `workflow_events` table.  The JSON payload is modelled by the
fields the source actually writes: `parent_ticket_id` (merge events),
`error` (failure events) and `reasoning_trace` (completion/failure events). -/
structure WorkflowEvent where
  ticket_id : String
  event_type : String
  payload_parent_ticket_id : Option String
  payload_error : Option String
  payload_reasoning_trace : Option (List String)
  processed : Bool
deriving DecidableEq

/-- The persistent state the core touches. -/
structure DB where
  tickets : List DBTicket
  reports : List Report
  events : List WorkflowEvent
deriving DecidableEq

/-- JavaScript truthiness of an optional number at the dedup interface:
`undefined`/`null` and `0` are both falsy. -/
def truthy (x : Option ℚ) : Bool :=
  match x with
  | none => false
  | some v => decide (v ≠ 0)

/-- An element of the list returned by `findDedupCandidates`. -/
structure Candidate where
  id : String
  distance : ℚ
  timeDiff : ℚ
deriving DecidableEq

/-- The proximity-recency composite used by the sort comparator in
`findDedupCandidates`: 1/(distance+1) * 1/(timeDiff+1). -/
def compositeScore (c : Candidate) : ℚ :=
  (1 / (c.distance + 1)) * (1 / (c.timeDiff + 1))

/-- The ordering the comparator `scoreB - scoreA` establishes: descending by
composite score. -/
def candOrder (a b : Candidate) : Prop :=
  compositeScore b ≤ compositeScore a

instance : DecidableRel candOrder := fun a b =>
  inferInstanceAs (Decidable (compositeScore b ≤ compositeScore a))

instance : IsTotal Candidate candOrder :=
  ⟨fun a b => le_total (compositeScore b) (compositeScore a)⟩

instance : IsTrans Candidate candOrder :=
  ⟨fun _ _ _ h1 h2 => le_trans h2 h1⟩

/-- The body of the loop in `findDedupCandidates`
(src/src/utils/similarity.ts lines 126-156): skip tickets with falsy
coordinates, closed tickets and children, tickets farther than 2R, tickets
older than W hours relative to `now` (the source uses the current time,
`new Date().getTime()`), and annotate survivors with distance and age.
`dist` abstracts `calculateDistance` (Haversine); times are in milliseconds. -/
def gateCandidate (cfg : Config) (dist : ℚ → ℚ → ℚ → ℚ → ℚ) (now : ℚ)
    (ticketLat ticketLon : ℚ) (t : DBTicket) : Option Candidate :=
  if truthy t.lat = false ∨ truthy t.lon = false then none
  else if t.status = Status.closed ∨ t.parent_id ≠ none then none
  else
    let distance := dist ticketLat ticketLon (t.lat.getD 0) (t.lon.getD 0)
    if cfg.GEO_RADIUS_METERS * 2 < distance then none
    else
      let timeDiffHours := (now - t.created_at) / 3600000
      if cfg.TIME_WINDOW_HOURS < timeDiffHours then none
      else some { id := t.id, distance := distance, timeDiff := timeDiffHours }

/-- Translation of `findDedupCandidates` (src/src/utils/similarity.ts lines
111-164): filter and annotate the pool, then sort descending by the
proximity-recency composite.  The ECMAScript stable sort is modelled by the
stable `List.insertionSort`. -/
def findDedupCandidates (cfg : Config) (dist : ℚ → ℚ → ℚ → ℚ → ℚ) (now : ℚ)
    (ticketLat ticketLon : ℚ) (allTickets : List DBTicket) : List Candidate :=
  List.insertionSort candOrder
    (allTickets.filterMap (gateCandidate cfg dist now ticketLat ticketLon))

/-- One entry of the list returned by `findSimilarTickets`
(src/src/services/embeddings.ts): a matched ticket id, its cosine similarity,
and the joined ticket row. -/
structure SimilarMatch where
  ticket_id : String
  similarity : ℚ
  ticket_data : DBTicket
deriving DecidableEq

/-- Outcome of the `findSimilarTickets` call: a success flag and the matches
(the source treats a missing list and an empty list alike). -/
structure FindSimilarResult where
  success : Bool
  similarities : List SimilarMatch
deriving DecidableEq

/-- Return shape of `dedupAgent` (src/src/agents/dedup.ts). -/
structure DedupResult where
  success : Bool
  should_merge : Bool
  parent_ticket_id : Option String
  decision : String
  error : Option String
deriving DecidableEq

/-- The `update ... set status = st where id = tid` effect on the tickets table. -/
def updateTicketStatus (db : DB) (tid : String) (st : Status) : DB :=
  { db with tickets := db.tickets.map (fun t => if t.id = tid then { t with status := st } else t) }

/-- Translation of `dedupAgent` (src/src/agents/dedup.ts lines 19-133).
External outcomes are explicit: `fetchOk` is whether the ticket `select`
succeeded (`.single()` can fail transiently), `upsertOk` is the result of
`upsertTicketEmbedding` — the source awaits that call but never inspects its
result, and the translation mirrors this by ignoring the argument — and `fs`
is the result of `findSimilarTickets`.  A thrown error is the caught
`success := false` result; the two `update status = open` effects are the
`updateTicketStatus` applications. -/
def dedupAgent (cfg : Config) (dist : ℚ → ℚ → ℚ → ℚ → ℚ) (now : ℚ)
    (ticketId : Option String) (fetchOk : Bool) (upsertOk : Bool)
    (fs : FindSimilarResult) (db : DB) : DedupResult × DB :=
  match ticketId with
  | none =>
      ({ success := false, should_merge := false, parent_ticket_id := none,
         decision := "error", error := some "No ticket ID in state" }, db)
  | some tid =>
    if fetchOk = false then
      ({ success := false, should_merge := false, parent_ticket_id := none,
         decision := "error", error := some "Ticket not found" }, db)
    else
      match db.tickets.find? (fun t => t.id = tid) with
      | none =>
          ({ success := false, should_merge := false, parent_ticket_id := none,
             decision := "error", error := some "Ticket not found" }, db)
      | some ticket =>
        let noDup : DedupResult × DB :=
          ({ success := true, should_merge := false, parent_ticket_id := none,
             decision := "no_duplicates_found", error := none },
           updateTicketStatus db tid Status.opened)
        let noMerge : DedupResult × DB :=
          ({ success := true, should_merge := false, parent_ticket_id := none,
             decision := "similarity_below_threshold", error := none },
           updateTicketStatus db tid Status.opened)
        match fs.success, fs.similarities with
        | false, _ => noDup
        | true, [] => noDup
        | true, bestMatch :: _ =>
          if truthy ticket.lat = true ∧ truthy ticket.lon = true ∧
             truthy bestMatch.ticket_data.lat = true ∧ truthy bestMatch.ticket_data.lon = true then
            match findDedupCandidates cfg dist now (ticket.lat.getD 0) (ticket.lon.getD 0)
                [bestMatch.ticket_data] with
            | [] =>
                ({ success := true, should_merge := false, parent_ticket_id := none,
                   decision := "outside_geo_time_window", error := none }, db)
            | candidate :: _ =>
              let similarityScore :=
                calculateSimilarityScore cfg bestMatch.similarity candidate.distance candidate.timeDiff
              if similarityScore.duplicate = true then
                ({ success := true, should_merge := true,
                   parent_ticket_id := some bestMatch.ticket_id,
                   decision := "auto_merge", error := none }, db)
              else if similarityScore.borderline = true then
                ({ success := true, should_merge := true,
                   parent_ticket_id := some bestMatch.ticket_id,
                   decision := "borderline_auto_merge", error := none }, db)
              else noMerge
          else noMerge

/-- Return shape of `mergeAgent` (src/src/agents/merge.ts). -/
structure MergeResult where
  success : Bool
  error : Option String
deriving DecidableEq

/-- The event row `mergeAgent` inserts. -/
def mergedEvent (tid pid : String) : WorkflowEvent :=
  { ticket_id := tid, event_type := "ticket.merged",
    payload_parent_ticket_id := some pid, payload_error := none,
    payload_reasoning_trace := none, processed := false }

/-- Translation of `mergeAgent` (src/src/agents/merge.ts lines 14-76): set the
child's parent_id and status unconditionally, then append a "ticket.merged"
event.  The parent fetch and the child count are informational only (they feed
a trace string) and do not affect the result or the state. -/
def mergeAgent (ticketId : Option String) (parentTicketId : String) (db : DB) :
    MergeResult × DB :=
  match ticketId with
  | none => ({ success := false, error := some "No ticket ID in state" }, db)
  | some tid =>
    let db1 := { db with tickets := db.tickets.map (fun (t : DBTicket) =>
      if t.id = tid then { t with parent_id := some parentTicketId, status := Status.opened } else t) }
    ({ success := true, error := none },
     { db1 with events := db1.events ++ [mergedEvent tid parentTicketId] })

/-- Outcome of `intakeAgent` as the orchestrator sees it: on success the agent
has inserted a ticket row (always with status pending_dedup and no parent,
per the insert in src/src/agents/intake.ts) and a report row. -/
structure IntakeOutcome where
  success : Bool
  ticket : Option DBTicket
  reportId : Option String
  error : Option String
deriving DecidableEq

/-- Outcome of `validateGeoAgent` as the orchestrator sees it. -/
structure GeoOutcome where
  success : Bool
  error : Option String
deriving DecidableEq

/-- The outcomes of all external calls one workflow run awaits. -/
structure Oracles where
  intake : IntakeOutcome
  geo : GeoOutcome
  sentimentOk : Bool
  dedupFetchOk : Bool
  upsertOk : Bool
  findSimilar : FindSimilarResult
  notifyOk : Bool
deriving DecidableEq

/-- Return shape of `processIntakeWorkflow` (src/src/agents/workflow.ts). -/
structure WorkflowResult where
  success : Bool
  ticketId : Option String
  error : Option String
  reasoning : List String
deriving DecidableEq

/-- Translation of `processIntakeWorkflow` (src/src/agents/workflow.ts lines
30-133).  Stage order and short-circuits follow the source: intake failure and
geo-validation failure return early (writing no event); the sentiment result
only affects the trace; the dedup result is used without a success check; the
merge runs only under `success && should_merge && parent_ticket_id`; notify
(non-voice) appends a "notification.sent" event on success; finally a
"workflow.completed" event is appended.  Every agent in the source catches its
own exceptions and returns a structured result, so the orchestrator's
catch-block (which would write "workflow.failed") is not reachable from these
outcomes and has no corresponding branch here. -/
def processIntakeWorkflow (cfg : Config) (dist : ℚ → ℚ → ℚ → ℚ → ℚ) (now : ℚ)
    (o : Oracles) (channel : String) (db0 : DB) : WorkflowResult × DB :=
  let trace0 := ["Starting intake workflow for " ++ channel ++ " report"]
  if o.intake.success = false then
    ({ success := false, ticketId := none, error := o.intake.error, reasoning := trace0 }, db0)
  else
    let ticketId := o.intake.ticket.map (fun t => t.id)
    let db1 :=
      match o.intake.ticket with
      | some t => { db0 with tickets :=
          db0.tickets ++ [{ t with status := Status.pending_dedup, parent_id := none }] }
      | none => db0
    let trace1 := trace0 ++ ["Intake completed"]
    if o.geo.success = false then
      ({ success := false, ticketId := none, error := o.geo.error, reasoning := trace1 }, db1)
    else
      let trace2 := trace1 ++ ["Location validation passed"]
      let trace3 := if o.sentimentOk then trace2 ++ ["Sentiment analysis recorded"] else trace2
      let dedupStep := dedupAgent cfg dist now ticketId o.dedupFetchOk o.upsertOk o.findSimilar db1
      let dedupResult := dedupStep.1
      let db2 := dedupStep.2
      let trace4 := trace3 ++ ["Dedup check: " ++ dedupResult.decision]
      let mergeStep : DB × List String :=
        match dedupResult.success, dedupResult.should_merge, dedupResult.parent_ticket_id with
        | true, true, some pid =>
          let m := mergeAgent ticketId pid db2
          (m.2, if m.1.success then trace4 ++ ["Merged with parent ticket " ++ pid] else trace4)
        | _, _, _ => (db2, trace4)
      let db3 := mergeStep.1
      let trace5 := mergeStep.2
      let notifyStep : DB × List String :=
        match ticketId with
        | none => (db3, trace5)
        | some tid =>
          if o.notifyOk = false then (db3, trace5)
          else if channel = "voice" then (db3, trace5 ++ ["Notifications sent"])
          else
            ({ db3 with events := db3.events ++
               [{ ticket_id := tid, event_type := "notification.sent",
                  payload_parent_ticket_id := dedupResult.parent_ticket_id,
                  payload_error := none, payload_reasoning_trace := none,
                  processed := false }] },
             trace5 ++ ["Notifications sent"])
      let db4 := notifyStep.1
      let trace6 := notifyStep.2
      let db5 :=
        match ticketId with
        | some tid => { db4 with events := db4.events ++
            [{ ticket_id := tid, event_type := "workflow.completed",
               payload_parent_ticket_id := none, payload_error := none,
               payload_reasoning_trace := some trace6, processed := false }] }
        | none => db4
      ({ success := true, ticketId := ticketId, error := none, reasoning := trace6 }, db5)

/-- The (userId, orgId, rawText, channel) tuple `reprocessFailedTickets`
resubmits to `processIntakeWorkflow`. -/
structure ResubmitInput where
  userId : String
  orgId : String
  rawText : String
  channel : String
deriving DecidableEq

/-- The scan in `reprocessFailedTickets`: workflow.failed events with
processed = false, inner-joined to their ticket and at least one report,
limited to a batch of 10. -/
def failedScan (db : DB) : List WorkflowEvent :=
  ((db.events.filter (fun e =>
      decide (e.event_type = "workflow.failed") && decide (e.processed = false))).filter
    (fun e =>
      (db.tickets.find? (fun t => t.id = e.ticket_id)).isSome &&
      (db.reports.find? (fun r => r.ticket_id = e.ticket_id)).isSome)).take 10

/-- The tuple built from a scanned event's joined ticket and first report
(`report.user_id ?? ''`, `ticket.org_id ?? ''`, `report.transcript`,
`report.channel`), read from the scan-time snapshot. -/
def tupleOf (db : DB) (e : WorkflowEvent) : ResubmitInput :=
  match db.tickets.find? (fun t => t.id = e.ticket_id),
        db.reports.find? (fun r => r.ticket_id = e.ticket_id) with
  | some t, some r =>
      { userId := r.user_id, orgId := t.org_id, rawText := r.transcript, channel := r.channel }
  | _, _ => { userId := "", orgId := "", rawText := "", channel := "" }

/-- The `update workflow_events set processed = true where ticket_id = tid and
event_type = 'workflow.failed'` effect. -/
def markProcessed (events : List WorkflowEvent) (tid : String) : List WorkflowEvent :=
  events.map (fun ev =>
    if ev.ticket_id = tid ∧ ev.event_type = "workflow.failed" then
      { ev with processed := true }
    else ev)

/-- One iteration of the retry loop in `reprocessFailedTickets`: resubmit the
tuple of the scanned event; on success increment `processed` and flip the
processed flag of every workflow.failed event of that ticket, on failure
increment `failed` and change nothing.  The accumulator carries the counters,
the log of resubmitted tuples, and the database. -/
def reprocessStep (retry : ResubmitInput → Bool) (db : DB)
    (acc : (ℕ × ℕ) × List ResubmitInput × DB) (e : WorkflowEvent) :
    (ℕ × ℕ) × List ResubmitInput × DB :=
  let input := tupleOf db e
  if retry input then
    ((acc.1.1 + 1, acc.1.2), acc.2.1 ++ [input],
     { acc.2.2 with events := markProcessed acc.2.2.events e.ticket_id })
  else
    ((acc.1.1, acc.1.2 + 1), acc.2.1 ++ [input], acc.2.2)

/-- Translation of `reprocessFailedTickets` (src/src/agents/workflow.ts lines
162-228).  The recursive `processIntakeWorkflow` call is abstracted by the
`retry` outcome oracle (the rerun operates on a freshly created ticket of its
own); the returned list logs the tuples actually resubmitted, in order. -/
def reprocessFailedTickets (retry : ResubmitInput → Bool) (db : DB) :
    (ℕ × ℕ) × List ResubmitInput × DB :=
  (failedScan db).foldl (reprocessStep retry db) ((0, 0), [], db)

/-! Fixtures and specification-side definitions used by the claim theorems. -/

/-- A degenerate distance function (all points coincide), used for concrete
evaluations where the spatial part is not at issue. -/
def dist0 : ℚ → ℚ → ℚ → ℚ → ℚ := fun _ _ _ _ => 0

/-- Candidate-selection condition exactly as claim C8 words it (for
comparison with the source's `gateCandidate`): status not closed, parent_id
null, coordinates present, distance from the subject at most 2R, and age —
measured against the subject ticket's own created_at — at most W hours. -/
def specSelectsCandidateC8 (cfg : Config) (dist : ℚ → ℚ → ℚ → ℚ → ℚ)
    (subjectLat subjectLon subjectCreatedAt : ℚ) (t : DBTicket) : Prop :=
  t.status ≠ Status.closed ∧ t.parent_id = none ∧
  t.lat.isSome = true ∧ t.lon.isSome = true ∧
  dist subjectLat subjectLon (t.lat.getD 0) (t.lon.getD 0) ≤ cfg.GEO_RADIUS_METERS * 2 ∧
  (subjectCreatedAt - t.created_at) / 3600000 ≤ cfg.TIME_WINDOW_HOURS

instance (cfg dist la lo ca t) : Decidable (specSelectsCandidateC8 cfg dist la lo ca t) :=
  inferInstanceAs (Decidable (_ ∧ _ ∧ _ ∧ _ ∧ _ ∧ _))

/-- Pointwise evolution of one workflow_events row under
`reprocessFailedTickets`: identity and payload are never touched, and the
processed flag can only go from false to true, and only on a
"workflow.failed" row. -/
def eventDrift (ev evNew : WorkflowEvent) : Prop :=
  evNew.ticket_id = ev.ticket_id ∧ evNew.event_type = ev.event_type ∧
  evNew.payload_parent_ticket_id = ev.payload_parent_ticket_id ∧
  evNew.payload_error = ev.payload_error ∧
  evNew.payload_reasoning_trace = ev.payload_reasoning_trace ∧
  (evNew.processed = ev.processed ∨
    (ev.processed = false ∧ evNew.processed = true ∧ ev.event_type = "workflow.failed"))

/-- Subject ticket row used in concrete workflow scenarios. -/
def subjectTicket : DBTicket :=
  { id := "t-new", org_id := "org1", status := Status.pending_dedup, parent_id := none,
    lat := some 1, lon := some 1, created_at := 0 }

/-- Oracles for the C1 scenario: intake and geo-validation succeed, the
dedup ticket fetch fails (a transient read error), notify would succeed. -/
def oraclesC1 : Oracles :=
  { intake := { success := true, ticket := some subjectTicket,
                reportId := some "r1", error := none },
    geo := { success := true, error := none },
    sentimentOk := true, dedupFetchOk := false, upsertOk := true,
    findSimilar := { success := true, similarities := [] },
    notifyOk := true }

/-- Oracles for the C2 scenario: intake succeeds (a ticket row exists),
geo-validation reports a structured failure. -/
def oraclesC2 : Oracles :=
  { intake := { success := true, ticket := some subjectTicket,
                reportId := some "r1", error := none },
    geo := { success := false, error := some "Please provide a specific location or cross streets" },
    sentimentOk := true, dedupFetchOk := true, upsertOk := true,
    findSimilar := { success := true, similarities := [] },
    notifyOk := true }

/-- Best vector-search match used in the C6 scenario: a root ticket with
coordinates at the subject's location but created 1000 hours before `now`,
so the geo/time gate rejects it. -/
def staleMatch : SimilarMatch :=
  { ticket_id := "p-old", similarity := 95/100,
    ticket_data := { id := "p-old", org_id := "org1", status := Status.opened,
                     parent_id := none, lat := some 1, lon := some 1,
                     created_at := -3600000000 } }

/-- Oracles for the C6 scenario: everything succeeds and the best match is
`staleMatch`, which falls outside the time window. -/
def oraclesC6 : Oracles :=
  { intake := { success := true, ticket := some subjectTicket,
                reportId := some "r1", error := none },
    geo := { success := true, error := none },
    sentimentOk := true, dedupFetchOk := true, upsertOk := true,
    findSimilar := { success := true, similarities := [staleMatch] },
    notifyOk := true }

/-- Database for the C3 scenario: one pending ticket. -/
def dbC3 : DB := { tickets := [subjectTicket], reports := [], events := [] }

/-- Database for the C4 scenario: a pending child and an open root parent. -/
def dbC4 : DB :=
  { tickets := [{ id := "c1", org_id := "org1", status := Status.pending_dedup,
                  parent_id := none, lat := none, lon := none, created_at := 0 },
                { id := "p1", org_id := "org1", status := Status.opened,
                  parent_id := none, lat := none, lon := none, created_at := 0 }],
    reports := [], events := [] }

/-- Database for the C5 scenario: `p1` is itself a child of `p0`. -/
def dbC5 : DB :=
  { tickets := [{ id := "c1", org_id := "org1", status := Status.pending_dedup,
                  parent_id := none, lat := none, lon := none, created_at := 0 },
                { id := "p1", org_id := "org1", status := Status.opened,
                  parent_id := some "p0", lat := none, lon := none, created_at := 0 },
                { id := "p0", org_id := "org1", status := Status.opened,
                  parent_id := none, lat := none, lon := none, created_at := 0 }],
    reports := [], events := [] }

/-- Pool ticket for the C8 scenario: open root ticket at the subject's
location, created at time 0. -/
def poolTicketC8 : DBTicket :=
  { id := "u1", org_id := "org1", status := Status.opened, parent_id := none,
    lat := some 1, lon := some 1, created_at := 0 }

/-- Ticket ids used in the C9 scenario. -/
def namesC9 : List String :=
  ["t1", "t2", "t3", "t4", "t5", "t6", "t7", "t8", "t9", "t10"]

/-- Ticket fixture for the C9 scenario. -/
def mkTicketC9 (i : String) : DBTicket :=
  { id := i, org_id := "org-" ++ i, status := Status.pending_dedup, parent_id := none,
    lat := none, lon := none, created_at := 0 }

/-- Report fixture for the C9 scenario. -/
def mkReportC9 (i : String) : Report :=
  { ticket_id := i, user_id := "u-" ++ i, channel := "sms", transcript := "raw-" ++ i }

/-- Unprocessed workflow.failed event fixture for the C9 scenario. -/
def mkEventC9 (i : String) : WorkflowEvent :=
  { ticket_id := i, event_type := "workflow.failed", payload_parent_ticket_id := none,
    payload_error := some "err", payload_reasoning_trace := some ["trace"], processed := false }

/-- Database for the C9 scenario: ten tickets each with a report and an
unprocessed failure event, plus an eleventh failure event — a second one for
ticket t1 — sitting beyond the batch of 10. -/
def dbC9 : DB :=
  { tickets := namesC9.map mkTicketC9,
    reports := namesC9.map mkReportC9,
    events := namesC9.map mkEventC9 ++ [mkEventC9 "t1"] }

/-- Retry oracle for the C9 scenario: only the resubmission of t1's raw text
succeeds. -/
def retryC9 : ResubmitInput → Bool := fun inp => inp.rawText == "raw-t1"

/-- Match fixture for the C10 witness: a root ticket whose longitude is
exactly 0 and whose text similarity is maximal. -/
def zeroLonMatch : SimilarMatch :=
  { ticket_id := "z1", similarity := 1,
    ticket_data := { id := "z1", org_id := "org1", status := Status.opened,
                     parent_id := none, lat := some 1, lon := some 0,
                     created_at := 0 } }

/-- An empty database. -/
def emptyDB : DB := { tickets := [], reports := [], events := [] }

/-! Helper lemmas. -/

theorem updateTicketStatus_events (db : DB) (tid : String) (st : Status) :
    (updateTicketStatus db tid st).events = db.events := rfl

theorem updateTicketStatus_reports (db : DB) (tid : String) (st : Status) :
    (updateTicketStatus db tid st).reports = db.reports := rfl

theorem mem_updateTicketStatus (db : DB) (tid : String) (st : Status) :
    ∀ t ∈ (updateTicketStatus db tid st).tickets, t.id = tid → t.status = st := by
  intro t ht hid
  simp only [updateTicketStatus, List.mem_map] at ht
  obtain ⟨t0, _, rfl⟩ := ht
  by_cases h : t0.id = tid
  · simp [h]
  · simp only [if_neg h] at hid ⊢
    exact absurd hid h

theorem dedupAgent_events (cfg : Config) (dist : ℚ → ℚ → ℚ → ℚ → ℚ) (now : ℚ)
    (ticketId : Option String) (fetchOk upsertOk : Bool) (fs : FindSimilarResult) (db : DB) :
    (dedupAgent cfg dist now ticketId fetchOk upsertOk fs db).2.events = db.events := by
  unfold dedupAgent
  repeat' split
  all_goals simp only [updateTicketStatus]
  all_goals (first | rfl | (split_ifs <;> rfl))

theorem dedupAgent_reports (cfg : Config) (dist : ℚ → ℚ → ℚ → ℚ → ℚ) (now : ℚ)
    (ticketId : Option String) (fetchOk upsertOk : Bool) (fs : FindSimilarResult) (db : DB) :
    (dedupAgent cfg dist now ticketId fetchOk upsertOk fs db).2.reports = db.reports := by
  unfold dedupAgent
  repeat' split
  all_goals simp only [updateTicketStatus]
  all_goals (first | rfl | (split_ifs <;> rfl))

theorem mergeAgent_events (ticketId : Option String) (pid : String) (db : DB) :
    ∃ tl, (mergeAgent ticketId pid db).2.events = db.events ++ tl ∧
      ∀ e ∈ tl, e.event_type = "ticket.merged" := by
  cases ticketId with
  | none => exact ⟨[], by simp [mergeAgent]⟩
  | some tid =>
      refine ⟨[mergedEvent tid pid], by simp [mergeAgent], ?_⟩
      intro e he
      simp only [List.mem_singleton] at he
      subst he
      rfl

theorem mergeAgent_some_events (tid pid : String) (db : DB) :
    (mergeAgent (some tid) pid db).2.events = db.events ++ [mergedEvent tid pid] := rfl

theorem mergeAgent_none_events (pid : String) (db : DB) :
    (mergeAgent none pid db).2.events = db.events := rfl

set_option maxHeartbeats 1000000 in
theorem processIntakeWorkflow_events_shape (cfg : Config) (dist : ℚ → ℚ → ℚ → ℚ → ℚ)
    (now : ℚ) (o : Oracles) (channel : String) (db0 : DB) :
    ∃ tl, (processIntakeWorkflow cfg dist now o channel db0).2.events = db0.events ++ tl ∧
      ∀ e ∈ tl, e.event_type = "ticket.merged" ∨ e.event_type = "notification.sent" ∨
        e.event_type = "workflow.completed" := by
  unfold processIntakeWorkflow
  repeat' split
  all_goals try simp_all only [Option.map_some', Option.map_none', dedupAgent_events,
    mergeAgent_some_events, mergeAgent_none_events, List.append_assoc, List.nil_append,
    List.append_nil]
  all_goals repeat' split
  all_goals try simp_all only [Option.map_some', Option.map_none', dedupAgent_events,
    mergeAgent_some_events, mergeAgent_none_events, List.append_assoc, List.nil_append,
    List.append_nil]
  all_goals try (refine ⟨[], ?_, ?_⟩ <;> simp <;> done)
  all_goals try (refine ⟨_, rfl, ?_⟩; simp [List.forall_mem_append, List.forall_mem_cons,
    List.forall_mem_singleton, mergedEvent]; done)

theorem mem_mergeAgent_tickets (tid pid : String) (db : DB) :
    ∀ t ∈ (mergeAgent (some tid) pid db).2.tickets, t.id = tid →
      t.status = Status.opened ∧ t.parent_id = some pid := by
  intro t ht hid
  simp only [mergeAgent, List.mem_map] at ht
  obtain ⟨t0, _, rfl⟩ := ht
  by_cases h : t0.id = tid
  · simp [h]
  · simp only [if_neg h] at hid ⊢
    exact absurd hid h


theorem mem_findDedupCandidates (cfg : Config) (dist : ℚ → ℚ → ℚ → ℚ → ℚ) (now : ℚ)
    (la lo : ℚ) (pool : List DBTicket) (c : Candidate) :
    c ∈ findDedupCandidates cfg dist now la lo pool ↔
      ∃ t ∈ pool, gateCandidate cfg dist now la lo t = some c := by
  unfold findDedupCandidates
  rw [List.Perm.mem_iff (List.perm_insertionSort _ _)]
  exact List.mem_filterMap

theorem sorted_findDedupCandidates (cfg : Config) (dist : ℚ → ℚ → ℚ → ℚ → ℚ) (now : ℚ)
    (la lo : ℚ) (pool : List DBTicket) :
    List.Sorted candOrder (findDedupCandidates cfg dist now la lo pool) :=
  List.sorted_insertionSort candOrder _

theorem gateCandidate_eq_some (cfg : Config) (dist : ℚ → ℚ → ℚ → ℚ → ℚ) (now : ℚ)
    (la lo : ℚ) (t : DBTicket) (c : Candidate) :
    gateCandidate cfg dist now la lo t = some c ↔
      (truthy t.lat = true ∧ truthy t.lon = true ∧
       t.status ≠ Status.closed ∧ t.parent_id = none ∧
       dist la lo (t.lat.getD 0) (t.lon.getD 0) ≤ cfg.GEO_RADIUS_METERS * 2 ∧
       (now - t.created_at) / 3600000 ≤ cfg.TIME_WINDOW_HOURS ∧
       c = { id := t.id,
             distance := dist la lo (t.lat.getD 0) (t.lon.getD 0),
             timeDiff := (now - t.created_at) / 3600000 }) := by
  unfold gateCandidate
  split_ifs with h1 h2
  · simp only [false_iff]
    rintro ⟨hA, hB, -⟩
    rcases h1 with h | h <;> simp_all
  · simp only [false_iff]
    rintro ⟨-, -, hs, hp, -⟩
    rcases h2 with h | h
    · exact hs h
    · exact h hp
  · dsimp only
    split_ifs with h3 h4
    · simp only [false_iff]
      rintro ⟨-, -, -, -, h5, -⟩
      exact absurd h5 (not_le.mpr h3)
    · simp only [false_iff]
      rintro ⟨-, -, -, -, -, h6, -⟩
      exact absurd h6 (not_le.mpr h4)
    · rw [not_or] at h1 h2
      simp only [Option.some.injEq]
      constructor
      · rintro rfl
        refine ⟨?_, ?_, ?_, ?_, not_lt.mp h3, not_lt.mp h4, rfl⟩
        · simpa using h1.1
        · simpa using h1.2
        · exact h2.1
        · simpa using h2.2
      · rintro ⟨-, -, -, -, -, -, rfl⟩
        rfl



theorem eventDrift_refl (ev : WorkflowEvent) : eventDrift ev ev :=
  ⟨rfl, rfl, rfl, rfl, rfl, Or.inl rfl⟩

theorem eventDrift_trans {a b c : WorkflowEvent} (h1 : eventDrift a b) (h2 : eventDrift b c) :
    eventDrift a c := by
  obtain ⟨i1, t1, p1, e1, r1, f1⟩ := h1
  obtain ⟨i2, t2, p2, e2, r2, f2⟩ := h2
  refine ⟨i2.trans i1, t2.trans t1, p2.trans p1, e2.trans e1, r2.trans r1, ?_⟩
  rcases f1 with f1 | ⟨fa, fb, fc⟩
  · rcases f2 with f2 | ⟨ga, gb, gc⟩
    · exact Or.inl (f2.trans f1)
    · exact Or.inr ⟨f1 ▸ ga, gb, t1 ▸ gc⟩
  · rcases f2 with f2 | ⟨ga, gb, gc⟩
    · exact Or.inr ⟨fa, f2.trans fb, fc⟩
    · rw [fb] at ga
      cases ga
  

theorem forall2_eventDrift_refl (l : List WorkflowEvent) : List.Forall₂ eventDrift l l := by
  induction l with
  | nil => exact List.Forall₂.nil
  | cons e es ih => exact List.Forall₂.cons (eventDrift_refl e) ih

theorem forall2_eventDrift_trans {a b c : List WorkflowEvent}
    (h1 : List.Forall₂ eventDrift a b) (h2 : List.Forall₂ eventDrift b c) :
    List.Forall₂ eventDrift a c := by
  induction h1 generalizing c with
  | nil => cases h2; exact List.Forall₂.nil
  | cons hd tl ih =>
      cases h2 with
      | cons hd2 tl2 => exact List.Forall₂.cons (eventDrift_trans hd hd2) (ih tl2)

theorem forall2_eventDrift_markProcessed (l : List WorkflowEvent) (tid : String) :
    List.Forall₂ eventDrift l (markProcessed l tid) := by
  induction l with
  | nil => exact List.Forall₂.nil
  | cons e es ih =>
      refine List.Forall₂.cons ?_ ih
      by_cases h : e.ticket_id = tid ∧ e.event_type = "workflow.failed"
      · simp only [markProcessed, if_pos h]
        by_cases hp : e.processed = true
        · exact ⟨rfl, rfl, rfl, rfl, rfl, Or.inl hp.symm⟩
        · exact ⟨rfl, rfl, rfl, rfl, rfl, Or.inr ⟨Bool.not_eq_true _ ▸ hp, rfl, h.2⟩⟩
      · simp only [markProcessed, if_neg h]
        exact eventDrift_refl e

theorem reprocessStep_db_events (retry : ResubmitInput → Bool) (db : DB)
    (acc : (ℕ × ℕ) × List ResubmitInput × DB) (e : WorkflowEvent) :
    List.Forall₂ eventDrift acc.2.2.events (reprocessStep retry db acc e).2.2.events := by
  unfold reprocessStep
  by_cases h : retry (tupleOf db e)
  · simp only [if_pos h]
    exact forall2_eventDrift_markProcessed _ _
  · simp only [if_neg h]
    exact forall2_eventDrift_refl _

theorem reprocessStep_tickets (retry : ResubmitInput → Bool) (db : DB)
    (acc : (ℕ × ℕ) × List ResubmitInput × DB) (e : WorkflowEvent) :
    (reprocessStep retry db acc e).2.2.tickets = acc.2.2.tickets ∧
    (reprocessStep retry db acc e).2.2.reports = acc.2.2.reports ∧
    (reprocessStep retry db acc e).2.1 = acc.2.1 ++ [tupleOf db e] := by
  unfold reprocessStep
  by_cases h : retry (tupleOf db e) <;> simp [h]

theorem reprocess_foldl_invariant (retry : ResubmitInput → Bool) (db : DB)
    (batch : List WorkflowEvent) :
    ∀ acc : (ℕ × ℕ) × List ResubmitInput × DB,
      List.Forall₂ eventDrift acc.2.2.events
        ((batch.foldl (reprocessStep retry db) acc)).2.2.events ∧
      (batch.foldl (reprocessStep retry db) acc).2.2.tickets = acc.2.2.tickets ∧
      (batch.foldl (reprocessStep retry db) acc).2.2.reports = acc.2.2.reports ∧
      (batch.foldl (reprocessStep retry db) acc).2.1 = acc.2.1 ++ batch.map (tupleOf db) ∧
      ((∀ e ∈ batch, retry (tupleOf db e) = false) →
        (batch.foldl (reprocessStep retry db) acc).2.2 = acc.2.2) := by
  induction batch with
  | nil =>
      intro acc
      exact ⟨forall2_eventDrift_refl _, rfl, rfl, by simp, fun _ => rfl⟩
  | cons e bs ih =>
      intro acc
      rw [List.foldl_cons]
      obtain ⟨hd, ht, hr, hl, hall⟩ := ih (reprocessStep retry db acc e)
      obtain ⟨st, sr, sl⟩ := reprocessStep_tickets retry db acc e
      refine ⟨forall2_eventDrift_trans (reprocessStep_db_events retry db acc e) hd,
        ht.trans st, hr.trans sr, ?_, ?_⟩
      · rw [hl, sl]
        simp
      · intro hfa
        have he : retry (tupleOf db e) = false := hfa e (List.mem_cons_self e bs)
        have hstep : (reprocessStep retry db acc e).2.2 = acc.2.2 := by
          unfold reprocessStep
          simp [he]
        rw [hall (fun x hx => hfa x (List.mem_cons_of_mem e hx)), hstep]

theorem truthy_eq_true_iff (x : Option ℚ) :
    truthy x = true ↔ x ≠ none ∧ x ≠ some 0 := by
  cases x with
  | none => simp [truthy]
  | some v =>
      simp only [truthy, decide_eq_true_eq, ne_eq, Option.some.injEq]
      constructor
      · intro h
        exact ⟨by simp, h⟩
      · intro h
        exact h.2

theorem mem_failedScan (db : DB) :
    ∀ e ∈ failedScan db, e.event_type = "workflow.failed" ∧ e.processed = false := by
  intro e he
  unfold failedScan at he
  have h1 := List.take_subset 10 _ he
  have h2 := List.mem_of_mem_filter h1
  have h3 := List.of_mem_filter h2
  simp only [Bool.and_eq_true, decide_eq_true_eq] at h3
  exact h3

/-- C7: the similarity scorer computes exactly the documented weighted score
and classifies duplicate / borderline / distinct by the documented threshold
windows (for any threshold at or above the 0.6 floor, which includes the
default 0.85). -/
theorem calculateSimilarityScore_spec (cfg : Config) (t g dt : ℚ)
    (ht0 : 0 ≤ t) (ht1 : t ≤ 1) (hg : 0 ≤ g) (hdt : 0 ≤ dt)
    (hT : 6/10 ≤ cfg.SIMILARITY_THRESHOLD) :
    (calculateSimilarityScore cfg t g dt).score =
      7/10 * t + 3/10 *
        (((if g < cfg.GEO_RADIUS_METERS then 1
           else if g < cfg.GEO_RADIUS_METERS * 2 then (8:ℚ)/10 else 4/10) +
          (if dt < 24 then 1
           else if dt < cfg.TIME_WINDOW_HOURS then (8:ℚ)/10 else 5/10)) / 2) ∧
    ((calculateSimilarityScore cfg t g dt).duplicate = true ↔
      cfg.SIMILARITY_THRESHOLD ≤ (calculateSimilarityScore cfg t g dt).score) ∧
    ((calculateSimilarityScore cfg t g dt).borderline = true ↔
      (max (6/10) (cfg.SIMILARITY_THRESHOLD - 1/10) ≤ (calculateSimilarityScore cfg t g dt).score ∧
       (calculateSimilarityScore cfg t g dt).score < cfg.SIMILARITY_THRESHOLD)) ∧
    (((calculateSimilarityScore cfg t g dt).duplicate = false ∧
      (calculateSimilarityScore cfg t g dt).borderline = false) ↔
      (calculateSimilarityScore cfg t g dt).score <
        max (6/10) (cfg.SIMILARITY_THRESHOLD - 1/10)) := by
  unfold calculateSimilarityScore
  dsimp only
  refine ⟨by ring, by simp, by simp, ?_⟩
  simp only [decide_eq_false_iff_not, not_le, decide_eq_true_eq, not_and, not_lt]
  constructor
  · rintro ⟨hdup, hbord⟩
    by_contra hcon
    push_neg at hcon
    exact absurd (hbord hcon) (not_le.mpr hdup)
  · intro hlt
    have hfloor : max ((6:ℚ)/10) (cfg.SIMILARITY_THRESHOLD - 1/10) ≤ cfg.SIMILARITY_THRESHOLD :=
      max_le hT (by linarith)
    constructor
    · linarith
    · intro hge
      exact absurd hge (not_le.mpr hlt)

/-- Witness for C7 at the spec's own concrete scenario: text similarity 0.9,
distance 0, age 1 h, default config — score 0.93, decision duplicate. -/
theorem calculateSimilarityScore_spec_witness :
    (0:ℚ) ≤ 9/10 ∧ (9:ℚ)/10 ≤ 1 ∧ (6:ℚ)/10 ≤ defaultConfig.SIMILARITY_THRESHOLD ∧
    (calculateSimilarityScore defaultConfig (9/10) 0 1).score = 93/100 ∧
    (calculateSimilarityScore defaultConfig (9/10) 0 1).duplicate = true := by
  obtain ⟨hs, hdup, -, -⟩ :=
    calculateSimilarityScore_spec defaultConfig (9/10) 0 1 (by norm_num) (by norm_num)
      le_rfl (by norm_num) (by norm_num [defaultConfig])
  have hscore : (calculateSimilarityScore defaultConfig (9/10) 0 1).score = 93/100 := by
    rw [hs]
    norm_num [defaultConfig]
  refine ⟨by norm_num, by norm_num, by norm_num [defaultConfig], hscore, ?_⟩
  refine hdup.mpr ?_
  rw [hscore]
  norm_num [defaultConfig]

/-- C3 counterexample: with candidate retrieval failing (success = false), the
dedup agent returns success = true with decision "no_duplicates_found" and
marks the ticket open — not a structured error. -/
theorem dedupAgent_error_counterexample :
    (dedupAgent defaultConfig dist0 0 (some "t-new") true true
        { success := false, similarities := [] } dbC3).1 =
      { success := true, should_merge := false, parent_ticket_id := none,
        decision := "no_duplicates_found", error := none } ∧
    ((dedupAgent defaultConfig dist0 0 (some "t-new") true true
        { success := false, similarities := [] } dbC3).2.tickets.map DBTicket.status) =
      [Status.opened] := by decide

/-- C3 amended: when `findSimilarTickets` reports failure (and the ticket
fetch itself succeeded), `dedupAgent` treats it exactly like the no-candidates
case: success = true, decision "no_duplicates_found", ticket marked open. -/
theorem dedupAgent_retrieval_failure (cfg : Config) (dist : ℚ → ℚ → ℚ → ℚ → ℚ)
    (now : ℚ) (tid : String) (upsertOk : Bool) (fs : FindSimilarResult) (db : DB)
    (ticket : DBTicket)
    (hfind : db.tickets.find? (fun t => t.id = tid) = some ticket)
    (hf : fs.success = false) :
    dedupAgent cfg dist now (some tid) true upsertOk fs db =
      ({ success := true, should_merge := false, parent_ticket_id := none,
         decision := "no_duplicates_found", error := none },
       updateTicketStatus db tid Status.opened) := by
  rcases fs with ⟨fss, sims⟩
  simp only at hf
  subst hf
  unfold dedupAgent
  simp [hfind]

/-- Witness for C3's amended theorem at the concrete C3 scenario. -/
theorem dedupAgent_retrieval_failure_witness :
    dedupAgent defaultConfig dist0 0 (some "t-new") true true
        { success := false, similarities := [] } dbC3 =
      ({ success := true, should_merge := false, parent_ticket_id := none,
         decision := "no_duplicates_found", error := none },
       updateTicketStatus dbC3 "t-new" Status.opened) :=
  dedupAgent_retrieval_failure defaultConfig dist0 0 "t-new" true
    { success := false, similarities := [] } dbC3 subjectTicket (by decide) rfl

/-- C4 counterexample: running Merge twice for the same (child, parent) pair
leaves the ticket state unchanged but records two "ticket.merged" events —
the second event is not deduplicated. -/
theorem mergeAgent_duplicate_event_counterexample :
    ((mergeAgent (some "c1") "p1" (mergeAgent (some "c1") "p1" dbC4).2).2.tickets =
      (mergeAgent (some "c1") "p1" dbC4).2.tickets) ∧
    (((mergeAgent (some "c1") "p1" (mergeAgent (some "c1") "p1" dbC4).2).2.events.filter
        (fun e => e.event_type == "ticket.merged")).length = 2) := by decide

/-- C4 amended: a second Merge with the same pair is idempotent on the ticket
table and on the returned result, but appends one more "ticket.merged" event
each time (no event deduplication). -/
theorem mergeAgent_idempotent_tickets_duplicate_events (tid pid : String) (db : DB) :
    (mergeAgent (some tid) pid (mergeAgent (some tid) pid db).2).1 =
      (mergeAgent (some tid) pid db).1 ∧
    (mergeAgent (some tid) pid (mergeAgent (some tid) pid db).2).2.tickets =
      (mergeAgent (some tid) pid db).2.tickets ∧
    (mergeAgent (some tid) pid (mergeAgent (some tid) pid db).2).2.events =
      (mergeAgent (some tid) pid db).2.events ++ [mergedEvent tid pid] := by
  refine ⟨rfl, ?_, rfl⟩
  simp only [mergeAgent, List.map_map]
  apply List.map_congr_left
  intro t _
  by_cases h : t.id = tid <;> simp [h, Function.comp]

/-- C5 counterexample: merging child c1 into p1 — whose parent_id is p0, so
p1 is itself a child — succeeds silently and creates the chain c1 → p1 → p0;
no MergeConflict is detected or reported. -/
theorem mergeAgent_chain_counterexample :
    (mergeAgent (some "c1") "p1" dbC5).1 = { success := true, error := none } ∧
    ((mergeAgent (some "c1") "p1" dbC5).2.tickets.map DBTicket.parent_id) =
      [some "p1", some "p0", none] ∧
    (dbC5.tickets.map DBTicket.parent_id) = [none, some "p0", none] := by decide

/-- C5 amended: `mergeAgent` never inspects the parent's parent_id — the merge
is applied unconditionally and reports success for every database state; the
no-chain invariant rests solely on the upstream candidate filter, which indeed
only ever selects tickets whose parent_id is null. -/
theorem mergeAgent_no_parent_check (tid pid : String) (db : DB) :
    (mergeAgent (some tid) pid db).1 = { success := true, error := none } ∧
    (mergeAgent (some tid) pid db).2 =
      { db with
          tickets := db.tickets.map (fun t =>
            if t.id = tid then { t with parent_id := some pid, status := Status.opened } else t),
          events := db.events ++ [mergedEvent tid pid] } ∧
    (∀ (cfg : Config) (dist : ℚ → ℚ → ℚ → ℚ → ℚ) (now la lo : ℚ)
       (pool : List DBTicket) (c : Candidate),
       c ∈ findDedupCandidates cfg dist now la lo pool →
       ∃ t ∈ pool, c.id = t.id ∧ t.parent_id = none) := by
  refine ⟨rfl, rfl, ?_⟩
  intro cfg dist now la lo pool c hc
  rw [mem_findDedupCandidates] at hc
  obtain ⟨t, htp, hg⟩ := hc
  rw [gateCandidate_eq_some] at hg
  obtain ⟨-, -, -, hp, -, -, rfl⟩ := hg
  exact ⟨t, htp, rfl, hp⟩

/-- Witness for C5's amended theorem: concrete instantiation of the candidate
filter conjunct — the single candidate selected from a one-ticket pool comes
from a root ticket. -/
theorem mergeAgent_no_parent_check_witness :
    ∃ t ∈ [poolTicketC8],
      (Candidate.mk "u1" 0 1).id = t.id ∧ t.parent_id = none := by
  refine (mergeAgent_no_parent_check "c1" "p1" dbC4).2.2 defaultConfig dist0 3600000 1 1
    [poolTicketC8] (Candidate.mk "u1" 0 1) ?_
  norm_num [findDedupCandidates, gateCandidate, poolTicketC8, defaultConfig, truthy,
    List.insertionSort, List.orderedInsert, dist0]
  decide

/-- C10: a coordinate that is exactly 0 (or absent) is falsy at the dedup
interface.  (1) Every candidate returned by `findDedupCandidates` comes from a
pool ticket whose latitude and longitude are both present and nonzero.
(2) When the subject ticket or the best vector-search match has a falsy
coordinate, `dedupAgent` skips the geo/time gate and the scorer entirely and
never merges, falling through to "similarity_below_threshold" whatever the
text similarity. -/
theorem zero_coordinate_is_missing :
    (∀ (cfg : Config) (dist : ℚ → ℚ → ℚ → ℚ → ℚ) (now la lo : ℚ)
       (pool : List DBTicket) (c : Candidate),
       c ∈ findDedupCandidates cfg dist now la lo pool →
       ∃ t ∈ pool, c.id = t.id ∧
         t.lat ≠ none ∧ t.lat ≠ some 0 ∧ t.lon ≠ none ∧ t.lon ≠ some 0) ∧
    (∀ (cfg : Config) (dist : ℚ → ℚ → ℚ → ℚ → ℚ) (now : ℚ) (tid : String)
       (fetchOk upsertOk : Bool) (fs : FindSimilarResult) (db : DB)
       (ticket : DBTicket) (best : SimilarMatch) (rest : List SimilarMatch),
       db.tickets.find? (fun t => t.id = tid) = some ticket →
       fs.success = true → fs.similarities = best :: rest →
       (truthy ticket.lat = false ∨ truthy ticket.lon = false ∨
        truthy best.ticket_data.lat = false ∨ truthy best.ticket_data.lon = false) →
       (dedupAgent cfg dist now (some tid) fetchOk upsertOk fs db).1.should_merge = false ∧
       (fetchOk = true →
         (dedupAgent cfg dist now (some tid) fetchOk upsertOk fs db).1.decision =
           "similarity_below_threshold")) := by
  constructor
  · intro cfg dist now la lo pool c hc
    rw [mem_findDedupCandidates] at hc
    obtain ⟨t, htp, hg⟩ := hc
    rw [gateCandidate_eq_some] at hg
    obtain ⟨hlat, hlon, -, -, -, -, rfl⟩ := hg
    rw [truthy_eq_true_iff] at hlat hlon
    exact ⟨t, htp, rfl, hlat.1, hlat.2, hlon.1, hlon.2⟩
  · intro cfg dist now tid fetchOk upsertOk fs db ticket best rest hfind hfs hsims hbad
    have hC : ¬(truthy ticket.lat = true ∧ truthy ticket.lon = true ∧
        truthy best.ticket_data.lat = true ∧ truthy best.ticket_data.lon = true) := by
      rcases hbad with h | h | h | h <;> simp [h]
    rcases fs with ⟨fss, sims⟩
    simp only at hfs hsims
    subst hfs
    subst hsims
    cases fetchOk with
    | false =>
        refine ⟨?_, ?_⟩
        · unfold dedupAgent
          simp
        · intro h
          cases h
    | true =>
        unfold dedupAgent
        simp only [hfind]
        rw [if_neg hC]
        simp

/-- Witness for C10: a best match with longitude exactly 0 and text
similarity 1 is not merged. -/
theorem zero_coordinate_is_missing_witness :
    (dedupAgent defaultConfig dist0 0 (some "t-new") true true
        { success := true, similarities := [zeroLonMatch] } dbC3).1.should_merge = false ∧
    (dedupAgent defaultConfig dist0 0 (some "t-new") true true
        { success := true, similarities := [zeroLonMatch] } dbC3).1.decision =
      "similarity_below_threshold" := by
  have h := zero_coordinate_is_missing.2 defaultConfig dist0 0 "t-new" true true
    { success := true, similarities := [zeroLonMatch] } dbC3 subjectTicket zeroLonMatch []
    (by decide) rfl rfl (Or.inr (Or.inr (Or.inr (by decide))))
  exact ⟨h.1, h.2 rfl⟩

theorem dedupAgent_fetch_fail (cfg : Config) (dist : ℚ → ℚ → ℚ → ℚ → ℚ) (now : ℚ)
    (tid : String) (upsertOk : Bool) (fs : FindSimilarResult) (db : DB) :
    dedupAgent cfg dist now (some tid) false upsertOk fs db =
      ({ success := false, should_merge := false, parent_ticket_id := none,
         decision := "error", error := some "Ticket not found" }, db) := by
  unfold dedupAgent
  simp

/-- C1 counterexample: intake and geo-validation succeed, the dedup stage
reports an error (success = false), and yet the run returns success, the
notification and workflow.completed events are written, and the ticket stays
pending_dedup. -/
theorem workflow_dedup_failure_not_fatal_counterexample :
    ((dedupAgent defaultConfig dist0 0 (some "t-new") oraclesC1.dedupFetchOk
        oraclesC1.upsertOk oraclesC1.findSimilar
        { tickets := [subjectTicket], reports := [], events := [] }).1.success = false) ∧
    (processIntakeWorkflow defaultConfig dist0 0 oraclesC1 "sms" emptyDB).1.success = true ∧
    ((processIntakeWorkflow defaultConfig dist0 0 oraclesC1 "sms" emptyDB).2.events.map
       WorkflowEvent.event_type) = ["notification.sent", "workflow.completed"] ∧
    ((processIntakeWorkflow defaultConfig dist0 0 oraclesC1 "sms" emptyDB).2.tickets.map
       DBTicket.status) = [Status.pending_dedup] := by decide

/-- C1 amended: a Dedup failure does not abort the run: the orchestrator keeps
going, returns success to the caller, appends a workflow.completed event (and
never a workflow.failed or ticket.merged one), and the ticket row persists in
status pending_dedup. -/
theorem workflow_dedup_failure_not_fatal (cfg : Config) (dist : ℚ → ℚ → ℚ → ℚ → ℚ)
    (now : ℚ) (o : Oracles) (channel : String) (db0 : DB) (t : DBTicket)
    (hi : o.intake.success = true) (ht : o.intake.ticket = some t)
    (hg : o.geo.success = true) (hd : o.dedupFetchOk = false) :
    (processIntakeWorkflow cfg dist now o channel db0).1.success = true ∧
    (processIntakeWorkflow cfg dist now o channel db0).2.tickets =
      db0.tickets ++ [{ t with status := Status.pending_dedup, parent_id := none }] ∧
    ∃ tl, (processIntakeWorkflow cfg dist now o channel db0).2.events = db0.events ++ tl ∧
      (∀ e ∈ tl, e.event_type ≠ "ticket.merged" ∧ e.event_type ≠ "workflow.failed") ∧
      (∃ e ∈ tl, e.event_type = "workflow.completed") := by
  unfold processIntakeWorkflow
  simp only [hi, ht, hd, hg, Option.map_some', dedupAgent_fetch_fail,
    Bool.true_eq_false, if_false, ite_false, if_true, ite_true]
  repeat' split
  all_goals refine ⟨by first | trivial | rfl | simp, by first | trivial | rfl | simp, ?_⟩
  all_goals dsimp only
  all_goals simp only [List.append_assoc]
  all_goals refine ⟨_, rfl, ?_, ?_⟩
  all_goals simp [List.forall_mem_append, List.forall_mem_cons, List.forall_mem_singleton]

/-- Witness for C1's amended theorem at the concrete C1 scenario. -/
theorem workflow_dedup_failure_not_fatal_witness :
    (processIntakeWorkflow defaultConfig dist0 0 oraclesC1 "sms" emptyDB).1.success = true :=
  (workflow_dedup_failure_not_fatal defaultConfig dist0 0 oraclesC1 "sms" emptyDB
    subjectTicket rfl rfl rfl rfl).1

/-- C2 counterexample: GeoValidate fails after intake created the ticket; the
run returns a failure but appends no event at all — in particular no
"workflow.failed" event with the reasoning trace. -/
theorem workflow_geo_failure_no_event_counterexample :
    (processIntakeWorkflow defaultConfig dist0 0 oraclesC2 "sms" emptyDB).1.success = false ∧
    ((processIntakeWorkflow defaultConfig dist0 0 oraclesC2 "sms" emptyDB).2.tickets.map
       DBTicket.id) = ["t-new"] ∧
    (processIntakeWorkflow defaultConfig dist0 0 oraclesC2 "sms" emptyDB).2.events = [] := by
  decide

/-- C2 amended: the orchestrator never appends a "workflow.failed" event: each
agent catches its own exceptions, and the structured Intake/GeoValidate
failure paths return to the caller without persisting anything — even when a
ticket id exists, as the GeoValidate case shows. -/
theorem workflow_never_writes_failed_event (cfg : Config) (dist : ℚ → ℚ → ℚ → ℚ → ℚ)
    (now : ℚ) (o : Oracles) (channel : String) (db0 : DB) :
    (∀ e ∈ (processIntakeWorkflow cfg dist now o channel db0).2.events,
       e ∈ db0.events ∨ e.event_type ≠ "workflow.failed") ∧
    (o.intake.success = true → o.geo.success = false →
       (processIntakeWorkflow cfg dist now o channel db0).1.success = false ∧
       (processIntakeWorkflow cfg dist now o channel db0).2.events = db0.events) := by
  constructor
  · intro e he
    obtain ⟨tl, htl, hall⟩ := processIntakeWorkflow_events_shape cfg dist now o channel db0
    rw [htl] at he
    rcases List.mem_append.mp he with h | h
    · exact Or.inl h
    · right
      rcases hall e h with h1 | h1 | h1 <;> simp [h1]
  · intro hi hg
    unfold processIntakeWorkflow
    rcases ht : o.intake.ticket with _ | t <;>
      simp [hi, hg, ht]

/-- Witness for C2's amended theorem at the concrete C2 scenario. -/
theorem workflow_never_writes_failed_event_witness :
    (processIntakeWorkflow defaultConfig dist0 0 oraclesC2 "sms" emptyDB).1.success = false ∧
    (processIntakeWorkflow defaultConfig dist0 0 oraclesC2 "sms" emptyDB).2.events =
      emptyDB.events :=
  (workflow_never_writes_failed_event defaultConfig dist0 0 oraclesC2 "sms" emptyDB).2 rfl rfl

/-- C6 counterexample: the best match is outside the time window, so Dedup
returns should_merge = false with decision "outside_geo_time_window" WITHOUT
marking the ticket open; the run then completes successfully with the ticket
still pending_dedup. -/
theorem workflow_outside_window_pending_counterexample :
    (processIntakeWorkflow defaultConfig dist0 0 oraclesC6 "sms" emptyDB).1.success = true ∧
    ((processIntakeWorkflow defaultConfig dist0 0 oraclesC6 "sms" emptyDB).2.tickets.map
       DBTicket.status) = [Status.pending_dedup] ∧
    ((processIntakeWorkflow defaultConfig dist0 0 oraclesC6 "sms" emptyDB).2.events.map
       WorkflowEvent.event_type) = ["notification.sent", "workflow.completed"] := by
  norm_num [processIntakeWorkflow, dedupAgent, oraclesC6, subjectTicket, staleMatch,
    findDedupCandidates, gateCandidate, truthy, dist0, defaultConfig, emptyDB,
    updateTicketStatus, List.insertionSort, List.orderedInsert]
  decide

/-- C6 amended: every successful Dedup outcome with should_merge = false marks
the ticket open EXCEPT the "outside_geo_time_window" outcome, which leaves the
database (and so the pending_dedup status) untouched; a merge sets the child
open with parent_id pointing at the elected parent. -/
theorem dedup_status_transitions (cfg : Config) (dist : ℚ → ℚ → ℚ → ℚ → ℚ) (now : ℚ)
    (tid : String) (fetchOk upsertOk : Bool) (fs : FindSimilarResult) (db : DB) :
    ((dedupAgent cfg dist now (some tid) fetchOk upsertOk fs db).1.success = true →
     (dedupAgent cfg dist now (some tid) fetchOk upsertOk fs db).1.should_merge = false →
     (dedupAgent cfg dist now (some tid) fetchOk upsertOk fs db).1.decision ≠
       "outside_geo_time_window" →
     (dedupAgent cfg dist now (some tid) fetchOk upsertOk fs db).2 =
       updateTicketStatus db tid Status.opened ∧
     ∀ t ∈ (dedupAgent cfg dist now (some tid) fetchOk upsertOk fs db).2.tickets,
       t.id = tid → t.status = Status.opened) ∧
    ((dedupAgent cfg dist now (some tid) fetchOk upsertOk fs db).1.decision =
       "outside_geo_time_window" →
     (dedupAgent cfg dist now (some tid) fetchOk upsertOk fs db).2 = db) ∧
    (∀ pid, ∀ t ∈ (mergeAgent (some tid) pid db).2.tickets, t.id = tid →
       t.status = Status.opened ∧ t.parent_id = some pid) := by
  have main :
      ((dedupAgent cfg dist now (some tid) fetchOk upsertOk fs db).1.success = true →
       (dedupAgent cfg dist now (some tid) fetchOk upsertOk fs db).1.should_merge = false →
       (dedupAgent cfg dist now (some tid) fetchOk upsertOk fs db).1.decision ≠
         "outside_geo_time_window" →
       (dedupAgent cfg dist now (some tid) fetchOk upsertOk fs db).2 =
         updateTicketStatus db tid Status.opened) ∧
      ((dedupAgent cfg dist now (some tid) fetchOk upsertOk fs db).1.decision =
         "outside_geo_time_window" →
       (dedupAgent cfg dist now (some tid) fetchOk upsertOk fs db).2 = db) := by
    cases fetchOk with
    | false =>
        constructor
        · intro hs
          simp [dedupAgent] at hs
        · intro hd
          simp [dedupAgent] at hd
    | true =>
        cases hfind : db.tickets.find? (fun t => t.id = tid) with
        | none =>
            constructor
            · intro hs
              simp only [dedupAgent, hfind] at hs
              simp at hs
            · intro hd
              simp only [dedupAgent, hfind] at hd
              simp at hd
        | some ticket =>
            rcases fs with ⟨fss, sims⟩
            cases fss with
            | false =>
                constructor
                · intro hs hm hd
                  simp [dedupAgent, hfind]
                · intro hd
                  simp only [dedupAgent, hfind] at hd
                  simp at hd
            | true =>
                cases sims with
                | nil =>
                    constructor
                    · intro hs hm hd
                      simp [dedupAgent, hfind]
                    · intro hd
                      simp only [dedupAgent, hfind] at hd
                      simp at hd
                | cons best rest =>
                    by_cases hC : truthy ticket.lat = true ∧ truthy ticket.lon = true ∧
                        truthy best.ticket_data.lat = true ∧ truthy best.ticket_data.lon = true
                    · cases hcand : findDedupCandidates cfg dist now (ticket.lat.getD 0)
                          (ticket.lon.getD 0) [best.ticket_data] with
                      | nil =>
                          constructor
                          · intro hs hm hd
                            have hdec : (dedupAgent cfg dist now (some tid) true upsertOk
                                ⟨true, best :: rest⟩ db).1.decision = "outside_geo_time_window" := by
                              simp only [dedupAgent, hfind]
                              rw [if_pos hC, hcand]
                              try exact rfl
                            exact absurd hdec hd
                          · intro hd
                            show (dedupAgent cfg dist now (some tid) true upsertOk
                                ⟨true, best :: rest⟩ db).2 = db
                            simp only [dedupAgent, hfind]
                            rw [if_pos hC, hcand]
                            try exact rfl
                      | cons c cs =>
                          by_cases hdup :
                              (calculateSimilarityScore cfg best.similarity c.distance c.timeDiff).duplicate = true
                          · constructor
                            · intro hs hm
                              have : (dedupAgent cfg dist now (some tid) true upsertOk
                                  ⟨true, best :: rest⟩ db).1.should_merge = true := by
                                simp only [dedupAgent, hfind]
                                rw [if_pos hC, hcand]; dsimp only; rw [if_pos hdup]
                                try exact rfl
                              rw [this] at hm
                              cases hm
                            · intro hd
                              have : (dedupAgent cfg dist now (some tid) true upsertOk
                                  ⟨true, best :: rest⟩ db).1.decision = "auto_merge" := by
                                simp only [dedupAgent, hfind]
                                rw [if_pos hC, hcand]; dsimp only; rw [if_pos hdup]
                                try exact rfl
                              rw [this] at hd
                              simp at hd
                          · by_cases hbord :
                                (calculateSimilarityScore cfg best.similarity c.distance c.timeDiff).borderline = true
                            · constructor
                              · intro hs hm
                                have : (dedupAgent cfg dist now (some tid) true upsertOk
                                    ⟨true, best :: rest⟩ db).1.should_merge = true := by
                                  simp only [dedupAgent, hfind]
                                  rw [if_pos hC, hcand]; dsimp only; rw [if_neg hdup, if_pos hbord]
                                  try exact rfl
                                rw [this] at hm
                                cases hm
                              · intro hd
                                have : (dedupAgent cfg dist now (some tid) true upsertOk
                                    ⟨true, best :: rest⟩ db).1.decision = "borderline_auto_merge" := by
                                  simp only [dedupAgent, hfind]
                                  rw [if_pos hC, hcand]; dsimp only; rw [if_neg hdup, if_pos hbord]
                                  try exact rfl
                                rw [this] at hd
                                simp at hd
                            · constructor
                              · intro hs hm hd
                                simp only [dedupAgent, hfind]
                                rw [if_pos hC, hcand]; dsimp only; rw [if_neg hdup, if_neg hbord]
                                try exact rfl
                              · intro hd
                                have : (dedupAgent cfg dist now (some tid) true upsertOk
                                    ⟨true, best :: rest⟩ db).1.decision = "similarity_below_threshold" := by
                                  simp only [dedupAgent, hfind]
                                  rw [if_pos hC, hcand]; dsimp only; rw [if_neg hdup, if_neg hbord]
                                  try exact rfl
                                rw [this] at hd
                                simp at hd
                    · constructor
                      · intro hs hm hd
                        simp only [dedupAgent, hfind]
                        rw [if_neg hC]
                        try exact rfl
                      · intro hd
                        have : (dedupAgent cfg dist now (some tid) true upsertOk
                            ⟨true, best :: rest⟩ db).1.decision = "similarity_below_threshold" := by
                          simp only [dedupAgent, hfind]
                          rw [if_neg hC]
                          try exact rfl
                        rw [this] at hd
                        simp at hd
  refine ⟨fun hs hm hd => ⟨main.1 hs hm hd, ?_⟩, main.2,
    fun pid => mem_mergeAgent_tickets tid pid db⟩
  rw [main.1 hs hm hd]
  exact mem_updateTicketStatus db tid Status.opened

/-- Witness for C6's amended theorem: in the concrete outside-window scenario
the dedup call leaves the database unchanged. -/
theorem dedup_status_transitions_witness :
    (dedupAgent defaultConfig dist0 0 (some "t-new") true true
        { success := true, similarities := [staleMatch] } dbC3).2 = dbC3 := by
  apply (dedup_status_transitions defaultConfig dist0 0 "t-new" true true
    { success := true, similarities := [staleMatch] } dbC3).2.1
  norm_num [dedupAgent, dbC3, subjectTicket, staleMatch, findDedupCandidates, gateCandidate,
    truthy, dist0, defaultConfig, List.insertionSort, List.orderedInsert]

/-- C8 counterexample: the subject ticket was created at epoch hour 1 and the
pool ticket at hour 0, so its age relative to the subject is 1 h (within W =
48 h) and the claim selects it; but the code measures age from the current
clock — here hour 100 — and returns the empty list. -/
theorem findDedupCandidates_age_base_counterexample :
    specSelectsCandidateC8 defaultConfig dist0 1 1 3600000 poolTicketC8 ∧
    findDedupCandidates defaultConfig dist0 360000000 1 1 [poolTicketC8] = [] := by
  constructor
  · refine ⟨by decide, by decide, by decide, by decide, ?_, ?_⟩
    · norm_num [poolTicketC8, defaultConfig, dist0]
    · norm_num [poolTicketC8, defaultConfig]
  · norm_num [findDedupCandidates, gateCandidate, poolTicketC8, defaultConfig, dist0, truthy,
      List.insertionSort, List.orderedInsert]

/-- C8 amended: `findDedupCandidates` returns exactly the pool tickets with
truthy (present, nonzero) coordinates, status not closed and no parent, whose
distance is at most 2R and whose age measured against the CURRENT time is at
most W, annotated with distance and age, and the result is sorted descending
by the proximity-recency composite. -/
theorem findDedupCandidates_spec (cfg : Config) (dist : ℚ → ℚ → ℚ → ℚ → ℚ) (now : ℚ)
    (la lo : ℚ) (pool : List DBTicket) :
    (∀ c, c ∈ findDedupCandidates cfg dist now la lo pool ↔
       ∃ t ∈ pool, truthy t.lat = true ∧ truthy t.lon = true ∧
         t.status ≠ Status.closed ∧ t.parent_id = none ∧
         dist la lo (t.lat.getD 0) (t.lon.getD 0) ≤ cfg.GEO_RADIUS_METERS * 2 ∧
         (now - t.created_at) / 3600000 ≤ cfg.TIME_WINDOW_HOURS ∧
         c = { id := t.id, distance := dist la lo (t.lat.getD 0) (t.lon.getD 0),
               timeDiff := (now - t.created_at) / 3600000 }) ∧
    List.Pairwise (fun a b => compositeScore b ≤ compositeScore a)
      (findDedupCandidates cfg dist now la lo pool) := by
  constructor
  · intro c
    rw [mem_findDedupCandidates]
    constructor
    · rintro ⟨t, ht, hg⟩
      exact ⟨t, ht, (gateCandidate_eq_some cfg dist now la lo t c).mp hg⟩
    · rintro ⟨t, ht, hg⟩
      exact ⟨t, ht, (gateCandidate_eq_some cfg dist now la lo t c).mpr hg⟩
  · exact sorted_findDedupCandidates cfg dist now la lo pool

theorem forall2_eventDrift_getD {l l' : List WorkflowEvent}
    (h : List.Forall₂ eventDrift l l') :
    ∀ (i : ℕ) (d : WorkflowEvent), i < l.length → eventDrift (l.getD i d) (l'.getD i d) := by
  induction h with
  | nil => intro i d hi; cases hi
  | cons hd tl ih =>
      intro i d hi
      cases i with
      | zero => simpa [List.getD] using hd
      | succ n =>
          simp only [List.getD_cons_succ]
          exact ih n d (Nat.lt_of_succ_lt_succ hi)

theorem markProcessed_getD (l : List WorkflowEvent) (tid : String) :
    ∀ (i : ℕ) (d : WorkflowEvent), i < l.length →
      (markProcessed l tid).getD i d =
        (if (l.getD i d).ticket_id = tid ∧ (l.getD i d).event_type = "workflow.failed" then
          { l.getD i d with processed := true } else l.getD i d) := by
  induction l with
  | nil => intro i d hi; cases hi
  | cons e es ih =>
      intro i d hi
      cases i with
      | zero => simp [markProcessed, List.getD]
      | succ n =>
          simp only [markProcessed, List.map_cons, List.getD_cons_succ]
          exact ih n d (Nat.lt_of_succ_lt_succ hi)

theorem markProcessed_length (l : List WorkflowEvent) (tid : String) :
    (markProcessed l tid).length = l.length := by
  simp [markProcessed]

theorem fold_keeps_processed (retry : ResubmitInput → Bool) (db : DB)
    (batch : List WorkflowEvent) (acc : (ℕ × ℕ) × List ResubmitInput × DB)
    (i : ℕ) (d : WorkflowEvent) (hi : i < acc.2.2.events.length)
    (hp : (acc.2.2.events.getD i d).processed = true) :
    (((batch.foldl (reprocessStep retry db) acc)).2.2.events.getD i d).processed = true := by
  obtain ⟨hdrift, -, -, -, -⟩ := reprocess_foldl_invariant retry db batch acc
  have h := forall2_eventDrift_getD hdrift i d hi
  obtain ⟨-, -, -, -, -, hflag⟩ := h
  rcases hflag with heq | ⟨-, htrue, -⟩
  · rw [heq, hp]
  · exact htrue

theorem reprocess_marks_ticket (retry : ResubmitInput → Bool) (db : DB) (e : WorkflowEvent)
    (he : e ∈ failedScan db) (hr : retry (tupleOf db e) = true) :
    ∀ (i : ℕ) (d : WorkflowEvent), i < db.events.length →
      (db.events.getD i d).ticket_id = e.ticket_id →
      (db.events.getD i d).event_type = "workflow.failed" →
      ((reprocessFailedTickets retry db).2.2.events.getD i d).processed = true := by
  intro i d hi hid htype
  obtain ⟨pre, post, hsplit⟩ := List.append_of_mem he
  unfold reprocessFailedTickets
  rw [hsplit, List.foldl_append, List.foldl_cons]
  obtain ⟨hdrift1, -, -, -, -⟩ :=
    reprocess_foldl_invariant retry db pre ((0, 0), [], db)
  have hlen1 : (pre.foldl (reprocessStep retry db) ((0, 0), [], db)).2.2.events.length =
      db.events.length := (List.Forall₂.length_eq hdrift1).symm
  obtain ⟨hid1, htype1, -, -, -, -⟩ := forall2_eventDrift_getD hdrift1 i d hi
  have hstep : reprocessStep retry db (pre.foldl (reprocessStep retry db) ((0, 0), [], db)) e =
      (((pre.foldl (reprocessStep retry db) ((0, 0), [], db)).1.1 + 1,
        (pre.foldl (reprocessStep retry db) ((0, 0), [], db)).1.2),
       (pre.foldl (reprocessStep retry db) ((0, 0), [], db)).2.1 ++ [tupleOf db e],
       { (pre.foldl (reprocessStep retry db) ((0, 0), [], db)).2.2 with
           events := markProcessed
             (pre.foldl (reprocessStep retry db) ((0, 0), [], db)).2.2.events e.ticket_id }) := by
    unfold reprocessStep
    rw [if_pos hr]
  rw [hstep]
  apply fold_keeps_processed
  · show i < (markProcessed _ e.ticket_id).length
    rw [markProcessed_length, hlen1]
    exact hi
  · show ((markProcessed _ e.ticket_id).getD i d).processed = true
    rw [markProcessed_getD _ _ i d (by rw [hlen1]; exact hi)]
    rw [if_pos ⟨hid1.trans hid, htype1.trans htype⟩]

/-- C9 counterexample: ticket t1 has two unprocessed workflow.failed events;
the second sits just past the batch of 10 and is never resubmitted (only 10
resubmissions occur), yet after t1's successful resubmission its processed
flag is also flipped — the update is keyed on (ticket_id, event_type), not on
the originating event. -/
theorem reprocess_flips_nonoriginating_counterexample :
    (dbC9.events.getD 10 (mkEventC9 "x")).processed = false ∧
    (reprocessFailedTickets retryC9 dbC9).2.1.length = 10 ∧
    ((reprocessFailedTickets retryC9 dbC9).2.2.events.getD 10 (mkEventC9 "x")).processed =
      true := by decide

/-- C9 amended: the recovery scan takes only unprocessed workflow.failed
events (joined to a ticket and a report), capped at a fixed batch of 10, and
resubmits exactly their (userId, orgId, rawText, channel) tuples in order; no
event row is ever deleted and the only field that changes is the processed
flag, which can flip false→true solely on workflow.failed rows; a successful
resubmission flips it on EVERY workflow.failed event of the originating
ticket; if every resubmission fails, the database is left unchanged for the
next batch. -/
theorem reprocessFailedTickets_spec (retry : ResubmitInput → Bool) (db : DB) :
    (reprocessFailedTickets retry db).2.2.tickets = db.tickets ∧
    (reprocessFailedTickets retry db).2.2.reports = db.reports ∧
    (reprocessFailedTickets retry db).2.1 = (failedScan db).map (tupleOf db) ∧
    (failedScan db).length ≤ 10 ∧
    (∀ e ∈ failedScan db, e.event_type = "workflow.failed" ∧ e.processed = false) ∧
    List.Forall₂ eventDrift db.events (reprocessFailedTickets retry db).2.2.events ∧
    (∀ e ∈ failedScan db, retry (tupleOf db e) = true →
      ∀ (i : ℕ) (d : WorkflowEvent), i < db.events.length →
        (db.events.getD i d).ticket_id = e.ticket_id →
        (db.events.getD i d).event_type = "workflow.failed" →
        ((reprocessFailedTickets retry db).2.2.events.getD i d).processed = true) ∧
    ((∀ e ∈ failedScan db, retry (tupleOf db e) = false) →
      (reprocessFailedTickets retry db).2.2 = db) := by
  obtain ⟨hd, ht, hr, hl, hall⟩ :=
    reprocess_foldl_invariant retry db (failedScan db) ((0, 0), [], db)
  refine ⟨ht, hr, by simpa using hl, ?_, mem_failedScan db, hd,
    fun e he hre => reprocess_marks_ticket retry db e he hre, fun h => hall h⟩
  unfold failedScan
  exact List.length_take_le 10 _

/-- Witness for C9's amended theorem: with every resubmission failing, the
database is untouched. -/
theorem reprocessFailedTickets_spec_witness :
    (reprocessFailedTickets (fun _ => false) dbC9).2.2 = dbC9 :=
  ((reprocessFailedTickets_spec (fun _ => false) dbC9).2.2.2.2.2.2.2) (fun _ _ => rfl)

end CivicSense
